import Mathlib

set_option maxHeartbeats 1000000

/-!
Verification of the SequenceTester device adapter (micro-manager,
src/DeviceAdapters/SequenceTester/SequenceTester.cpp).

The camera sequencing control functions (StartSequenceAcquisitionImpl,
StopSequenceAcquisition, SendSequence) and TesterXYStage::SetPositionSteps are
embedded from the source file. The SettingLogger and the generic Setting cell
live in SequenceTesterImpl.h, which is not part of the provided sources; those
definitions are modelled from the specification and are marked as such in
their doc comments. Locking is embedded by making every critical section a
single atomic step of the model, which is exactly what holding the mutex for
the whole section guarantees.
-/

/-- Micro-Manager result code DEVICE_OK (success). -/
def DEVICE_OK : Nat := 0

/-- Micro-Manager result code DEVICE_ERR, the generic error; this is the code
TesterCamera::StartSequenceAcquisitionImpl returns when a sequence is already
running (the condition the spec names AlreadyRunning). -/
def DEVICE_ERR : Nat := 1

/-- Micro-Manager result code DEVICE_BUFFER_OVERFLOW, reported by the core
callback's InsertImage when the circular buffer is full. -/
def DEVICE_BUFFER_OVERFLOW : Nat := 22

/-- Modelled from the spec: the OutOfRange error kind of section 7, returned
by Setting set on a bound violation (the header defining the numeric value is
not among the sources; only distinctness from the other codes matters). -/
def errOutOfRange : Nat := 5

/-- Modelled from the spec: the InvalidState error kind of section 7, returned
by Setting set when a pre-init-only setting is written after initialization. -/
def errInvalidState : Nat := 6

/-- Modelled from the spec: the InsufficientCapacity error kind of section 7,
reported by packAndReset when the buffer is too small for the encoding. -/
def errInsufficientCapacity : Nat := 7

/-- Modelled from the spec: the kind of a log entry, a setting Read or a
setting Write (data model, section 3). -/
inductive EntryKind
  | read
  | write
  deriving DecidableEq

/-- Modelled from the spec: one immutable LogEntry of the SettingLogger
(section 3): global sequence number assigned under the lock at record time,
recording thread, setting name, kind, and the value rendered as text. -/
structure LogEntry where
  seq : Nat
  threadId : Nat
  settingName : String
  kind : EntryKind
  valueText : String
  deriving DecidableEq

/-- Modelled from the spec: the SettingLogger (sections 3 and 4.1) owns the
ordered list of entries and the monotonic global sequence counter. The mutex
Guard is embedded by making each record operation one atomic step. -/
structure SettingLogger where
  counter : Nat
  entries : List LogEntry
  deriving DecidableEq

/-- A SettingLogger as freshly constructed: counter zero, no entries. -/
def SettingLogger.fresh : SettingLogger := ⟨0, []⟩

/-- Modelled from the spec: append a LogEntry with a freshly assigned sequence
number, under the guard (section 4.1). -/
def SettingLogger.record (lg : SettingLogger) (tid : Nat) (name : String)
    (k : EntryKind) (val : String) : SettingLogger :=
  ⟨lg.counter + 1, lg.entries ++ [⟨lg.counter, tid, name, k, val⟩]⟩

/-- Modelled from the spec: recordWrite of section 4.1. -/
def SettingLogger.recordWrite (lg : SettingLogger) (tid : Nat) (name val : String) :
    SettingLogger :=
  lg.record tid name EntryKind.write val

/-- Modelled from the spec: recordRead of section 4.1. -/
def SettingLogger.recordRead (lg : SettingLogger) (tid : Nat) (name val : String) :
    SettingLogger :=
  lg.record tid name EntryKind.read val

/-- The sequence numbers of the recorded entries, in recorded order. -/
def SettingLogger.seqNums (lg : SettingLogger) : List Nat :=
  lg.entries.map LogEntry.seq

/-- Modelled from the spec: the footprint one serialized Get or Set critical
section leaves in the log — a Read or a Write record, tagged with the calling
thread. Because the counter is incremented and the entry appended only while
the lock is held, any concurrent execution from any number of threads is some
interleaving, i.e. some list, of these atomic operations. -/
inductive LogOp
  | opRead (tid : Nat) (name : String) (val : String)
  | opWrite (tid : Nat) (name : String) (val : String)
  deriving DecidableEq

/-- Apply one serialized Get/Set critical section to the logger. -/
def applyLogOp (lg : SettingLogger) : LogOp → SettingLogger
  | LogOp.opRead tid name val => lg.recordRead tid name val
  | LogOp.opWrite tid name val => lg.recordWrite tid name val

/-- Run a serialized history of Get/Set critical sections. -/
def runLogOps (lg : SettingLogger) (ops : List LogOp) : SettingLogger :=
  ops.foldl applyLogOp lg

theorem applyLogOp_counter (lg : SettingLogger) (op : LogOp) :
    (applyLogOp lg op).counter = lg.counter + 1 := by
  cases op <;> rfl

theorem applyLogOp_seqNums (lg : SettingLogger) (op : LogOp) :
    (applyLogOp lg op).seqNums = lg.seqNums ++ [lg.counter] := by
  cases op <;> simp [applyLogOp, SettingLogger.recordRead, SettingLogger.recordWrite,
    SettingLogger.record, SettingLogger.seqNums]

theorem runLogOps_spec (ops : List LogOp) : ∀ lg : SettingLogger,
    (runLogOps lg ops).seqNums = lg.seqNums ++ List.range' lg.counter ops.length ∧
    (runLogOps lg ops).counter = lg.counter + ops.length := by
  induction ops with
  | nil => intro lg; simp [runLogOps]
  | cons op ops ih =>
    intro lg
    have h := ih (applyLogOp lg op)
    constructor
    · calc (runLogOps lg (op :: ops)).seqNums
          = (runLogOps (applyLogOp lg op) ops).seqNums := rfl
        _ = (applyLogOp lg op).seqNums ++
              List.range' (applyLogOp lg op).counter ops.length := h.1
        _ = (lg.seqNums ++ [lg.counter]) ++
              List.range' (lg.counter + 1) ops.length := by
            rw [applyLogOp_seqNums, applyLogOp_counter]
        _ = lg.seqNums ++ List.range' lg.counter (op :: ops).length := by
            simp [List.range'_succ, List.append_assoc]
    · calc (runLogOps lg (op :: ops)).counter
          = (runLogOps (applyLogOp lg op) ops).counter := rfl
        _ = (applyLogOp lg op).counter + ops.length := h.2
        _ = lg.counter + (op :: ops).length := by
            rw [applyLogOp_counter]; simp; omega

/-- C1: over any serialized history of Get/Set critical sections from any
number of threads, starting from a fresh logger, the sequence numbers of the
recorded entries are exactly 0, 1, ..., n-1 in recorded order: strictly
increasing, no duplicates, no gaps. -/
theorem settingLogger_seq_numbers_consecutive (ops : List LogOp) :
    (runLogOps SettingLogger.fresh ops).seqNums =
      List.range (runLogOps SettingLogger.fresh ops).entries.length ∧
    List.Pairwise (· < ·) (runLogOps SettingLogger.fresh ops).seqNums := by
  have h := runLogOps_spec ops SettingLogger.fresh
  have hlen : (runLogOps SettingLogger.fresh ops).entries.length = ops.length := by
    have := congrArg List.length h.1
    simpa [SettingLogger.seqNums, SettingLogger.fresh] using this
  have hseq : (runLogOps SettingLogger.fresh ops).seqNums = List.range ops.length := by
    have := h.1
    simpa [SettingLogger.seqNums, SettingLogger.fresh, List.range_eq_range'] using this
  refine ⟨by rw [hseq, hlen], ?_⟩
  rw [hseq]
  exact List.pairwise_lt_range ops.length

/-- Modelled from the spec: the generic Setting cell of sections 3 and 4.2:
name, current value, optional lower and upper bound, pre-init-only write
restriction, and whether the owning device has completed initialization. -/
structure Setting (α : Type) where
  name : String
  value : α
  minBound : Option α
  maxBound : Option α
  preInitOnly : Bool
  initialized : Bool
  deriving DecidableEq

/-- Whether a candidate value violates the configured bounds
(value smaller than min or larger than max). -/
def Setting.outOfBounds {α : Type} [LinearOrder α] (s : Setting α) (v : α) : Bool :=
  (match s.minBound with
   | some m => decide (v < m)
   | none => false) ||
  (match s.maxBound with
   | some m => decide (m < v)
   | none => false)

/-- Modelled from the spec: Setting set (section 4.2): validate the
pre-init-only restriction (InvalidState), then the bounds (OutOfRange), then,
under one guard acquisition, record a Write event and store the value.
Returns the result code, the logger and the setting after the call. -/
def Setting.set {α : Type} [LinearOrder α] [ToString α] (lg : SettingLogger)
    (s : Setting α) (tid : Nat) (v : α) : Nat × SettingLogger × Setting α :=
  if s.preInitOnly && s.initialized then (errInvalidState, lg, s)
  else if s.outOfBounds v then (errOutOfRange, lg, s)
  else (DEVICE_OK, lg.recordWrite tid s.name (toString v), { s with value := v })

/-- Modelled from the spec: Setting get (section 4.2): record a Read event
under the guard and return the current value. -/
def Setting.get {α : Type} [ToString α] (lg : SettingLogger) (s : Setting α)
    (tid : Nat) : α × SettingLogger :=
  (s.value, lg.recordRead tid s.name (toString s.value))

/-- C2 counterexample: a bounded setting that is pre-init-only and already
initialized; set with an out-of-range value returns InvalidState (the
pre-init-only validation of section 4.2 runs first), not OutOfRange as the
claim states. -/
theorem set_outOfRange_claim_counterexample :
    (Setting.set SettingLogger.fresh
        (⟨"S", (0 : Int), some 0, some 10, true, true⟩ : Setting Int) 3 11).1 =
      errInvalidState ∧
    errInvalidState ≠ errOutOfRange ∧
    Setting.outOfBounds (⟨"S", (0 : Int), some 0, some 10, true, true⟩ : Setting Int)
        11 = true := by
  refine ⟨rfl, by decide, by decide⟩

/-- C2 (amended): on any bounded integer or real setting whose write is not
blocked by the pre-init-only restriction, set with an out-of-bounds value
returns OutOfRange, stores nothing, and appends no log entry. -/
theorem set_out_of_bounds_rejected {α : Type} [LinearOrder α] [ToString α]
    (lg : SettingLogger) (s : Setting α) (tid : Nat) (v : α)
    (hpre : s.preInitOnly = false ∨ s.initialized = false)
    (hout : s.outOfBounds v = true) :
    Setting.set lg s tid v = (errOutOfRange, lg, s) := by
  have hb : (s.preInitOnly && s.initialized) = false := by
    rcases hpre with h | h <;> simp [h]
  simp [Setting.set, hb, hout]

/-- C2 witness: the camera's Binning setting (bounds 1..1) rejects the value 2
with OutOfRange, leaving the logger and the setting untouched. -/
theorem set_out_of_bounds_rejected_witness :
    Setting.set SettingLogger.fresh
        (⟨"Binning", (1 : Int), some 1, some 1, false, true⟩ : Setting Int) 0 2 =
      (errOutOfRange, SettingLogger.fresh,
        (⟨"Binning", (1 : Int), some 1, some 1, false, true⟩ : Setting Int)) :=
  set_out_of_bounds_rejected SettingLogger.fresh
    (⟨"Binning", (1 : Int), some 1, some 1, false, true⟩ : Setting Int) 0 2
    (Or.inl rfl) (by decide)

/-- The outcome the sequencing worker hands off through the future slot
(SequenceTester.cpp lines 314-318): the packaged task either completes
normally or stores the DeviceError thrown inside SendSequence; the exception
is captured in the future, never propagated across the thread boundary. -/
inductive WorkerOutcome
  | ok
  | error (code : Nat)
  deriving DecidableEq

/-- The sequencing state of TesterCamera relevant to start and stop:
stopSequence embeds the stopSequence_ flag guarded by sequenceMutex_, and
future embeds sequenceFuture_ as observed at the handoff (none is the
uninitialized or freshly reset future, some the captured worker outcome).
The constructor (line 152) starts with stopSequence_ true. -/
structure CameraSeq where
  stopSequence : Bool
  future : Option WorkerOutcome
  deriving DecidableEq

/-- A TesterCamera sequencing state as freshly constructed (line 152):
stopped, future uninitialized. -/
def CameraSeq.fresh : CameraSeq := ⟨true, none⟩

/-- Calls TesterCamera::StartSequenceAcquisitionImpl makes on the core
callback collaborator. -/
inductive AcqEvent
  | prepareForAcq
  deriving DecidableEq

/-- TesterCamera::StartSequenceAcquisitionImpl (lines 301-324): in one
critical section of sequenceMutex_, refuse with DEVICE_ERR when a sequence is
already running (stopSequence_ false), otherwise clear the stop flag; then
call PrepareForAcq and spawn the detached worker. The parameter w stands for
the outcome the spawned worker will eventually store in the future slot (the
count, finiteness and overflow-policy arguments only parametrize that worker,
embedded separately as sendSequence). Returns the result code, the new
sequencing state and the callback calls made. -/
def startSequenceAcquisitionImpl (c : CameraSeq) (w : WorkerOutcome) :
    Nat × CameraSeq × List AcqEvent :=
  if c.stopSequence = false then (DEVICE_ERR, c, [])
  else (DEVICE_OK, ⟨false, some w⟩, [AcqEvent.prepareForAcq])

/-- TesterCamera::StopSequenceAcquisition (lines 327-353): under
sequenceMutex_, return DEVICE_OK at once if already stopped, else set the stop
flag; then, if the future is initialized, collect the worker's outcome — a
captured DeviceError is returned to the caller after resetting the future, a
normal completion resets the future and falls through; finally call the core
callback's AcqFinished and return its code. Returns the result code, the new
state and the number of AcqFinished calls made. -/
def stopSequenceAcquisition (c : CameraSeq) (acqFinishedCode : Nat) :
    Nat × CameraSeq × Nat :=
  if c.stopSequence then (DEVICE_OK, c, 0)
  else
    match c.future with
    | some (WorkerOutcome.error code) => (code, ⟨true, none⟩, 0)
    | some WorkerOutcome.ok => (acqFinishedCode, ⟨true, none⟩, 1)
    | none => (acqFinishedCode, ⟨true, none⟩, 1)

/-- TesterCamera::IsCapturing (lines 356-361). -/
def isCapturing (c : CameraSeq) : Bool := !c.stopSequence

/-- C3: starting while a sequence is already running (stopSequence_ false)
returns DEVICE_ERR — the code the spec calls AlreadyRunning — makes no
callback call and leaves the state, hence the first run's worker, untouched;
the check and the transition are one critical section of sequenceMutex_,
embedded as a single atomic step. Moreover, after a successful start from an
idle state, a second start without an intervening stop fails exactly so. -/
theorem start_while_running_fails (c : CameraSeq) (w w' : WorkerOutcome)
    (h : c.stopSequence = false) :
    startSequenceAcquisitionImpl c w = (DEVICE_ERR, c, []) ∧
    (∀ c' : CameraSeq, c'.stopSequence = true →
      (startSequenceAcquisitionImpl c' w).1 = DEVICE_OK ∧
      startSequenceAcquisitionImpl
          (startSequenceAcquisitionImpl c' w).2.1 w' =
        (DEVICE_ERR, (startSequenceAcquisitionImpl c' w).2.1, [])) := by
  constructor
  · simp [startSequenceAcquisitionImpl, h]
  · intro c' h'
    simp [startSequenceAcquisitionImpl, h']

/-- C3 witness: on a running camera the second start fails with DEVICE_ERR
and changes nothing. -/
theorem start_while_running_fails_witness :
    startSequenceAcquisitionImpl (⟨false, none⟩ : CameraSeq) WorkerOutcome.ok =
      (DEVICE_ERR, (⟨false, none⟩ : CameraSeq), []) :=
  (start_while_running_fails (⟨false, none⟩ : CameraSeq)
    WorkerOutcome.ok WorkerOutcome.ok rfl).1

/-- C4: stop is idempotent: on an already-stopped camera it returns DEVICE_OK
and does nothing, and so does the stop after any stop; in general any single
stop makes at most one AcqFinished call and the stop following it makes none,
so the acquisition-finished notification fires at most once per completed
run. -/
theorem stop_idempotent (c : CameraSeq) (ac : Nat) (h : c.stopSequence = true) :
    stopSequenceAcquisition c ac = (DEVICE_OK, c, 0) ∧
    stopSequenceAcquisition (stopSequenceAcquisition c ac).2.1 ac =
      (DEVICE_OK, c, 0) ∧
    (∀ c' : CameraSeq,
      (stopSequenceAcquisition c' ac).2.2 ≤ 1 ∧
      (stopSequenceAcquisition c' ac).2.1.stopSequence = true ∧
      (stopSequenceAcquisition (stopSequenceAcquisition c' ac).2.1 ac).2.2 = 0) := by
  have hstop : ∀ c' : CameraSeq,
      (stopSequenceAcquisition c' ac).2.2 ≤ 1 ∧
      (stopSequenceAcquisition c' ac).2.1.stopSequence = true := by
    intro c'
    by_cases hc : c'.stopSequence
    · simp [stopSequenceAcquisition, hc]
    · rcases hf : c'.future with _ | w
      · simp [stopSequenceAcquisition, hc, hf]
      · cases w <;> simp [stopSequenceAcquisition, hc, hf]
  have hdone : ∀ c' : CameraSeq, c'.stopSequence = true →
      stopSequenceAcquisition c' ac = (DEVICE_OK, c', 0) := by
    intro c' h'
    simp [stopSequenceAcquisition, h']
  refine ⟨hdone c h, ?_, ?_⟩
  · rw [hdone c h]
    exact hdone c h
  · intro c'
    refine ⟨(hstop c').1, (hstop c').2, ?_⟩
    rw [hdone _ (hstop c').2]

/-- C4 witness: stopping a freshly constructed (stopped) camera twice returns
DEVICE_OK and does nothing either time. -/
theorem stop_idempotent_witness :
    stopSequenceAcquisition CameraSeq.fresh DEVICE_OK =
      (DEVICE_OK, CameraSeq.fresh, 0) :=
  (stop_idempotent CameraSeq.fresh DEVICE_OK rfl).1

/-- C5 counterexample: on a running camera whose worker captured an error,
stop returns the error code but makes zero AcqFinished calls, refuting the
claim that a stop completing a running sequence always invokes the
acquisition-finished notification (lines 340-348 return before line 352). -/
theorem stop_error_path_no_notification_counterexample :
    ((⟨false, some (WorkerOutcome.error 7)⟩ : CameraSeq).stopSequence = false) ∧
    stopSequenceAcquisition (⟨false, some (WorkerOutcome.error 7)⟩ : CameraSeq)
        DEVICE_OK = (7, (⟨true, none⟩ : CameraSeq), 0) := by
  exact ⟨rfl, rfl⟩

/-- Calls the sequencing worker makes on the core callback collaborator while
streaming (SendSequence, lines 396-443): insertImage carries the cumulative
and per-run counters embedded in the generated frame (the arguments of
GenerateLogImage at line 405) and the trailing bool argument of InsertImage —
omitted, hence true, on the first attempt, explicit false on the overflow
retry at line 417; clearImageBuffer records a ClearImageBuffer call. -/
inductive SeqEvent
  | insertImage (cumulative perRun : Nat) (failOnOverflowArg : Bool)
  | clearImageBuffer
  deriving DecidableEq

/-- The cumulative counter a delivered frame embeds (zero for the
clearImageBuffer bookkeeping event, which carries no frame). -/
def SeqEvent.cumulativeOf : SeqEvent → Nat
  | SeqEvent.insertImage c _ _ => c
  | SeqEvent.clearImageBuffer => 0

/-- The core callback collaborator's scripted InsertImage responses: each call
consumes the next code of the list; an exhausted script answers DEVICE_OK. -/
def takeResponse : List Nat → Nat × List Nat
  | [] => (DEVICE_OK, [])
  | r :: rs => (r, rs)

/-- One frame delivery of TesterCamera::SendSequence (lines 407-418): a first
InsertImage; if it reports DEVICE_BUFFER_OVERFLOW and stopOnOverflow is false,
one ClearImageBuffer followed by exactly one retry with the false flag.
Returns the callback events, the remaining script and the resulting code. -/
def deliverFrame (script : List Nat) (stopOnOverflow : Bool) (cum perRun : Nat) :
    List SeqEvent × List Nat × Nat :=
  let r1 := takeResponse script
  if stopOnOverflow = false ∧ r1.1 = DEVICE_BUFFER_OVERFLOW then
    let r2 := takeResponse r1.2
    ([SeqEvent.insertImage cum perRun true, SeqEvent.clearImageBuffer,
      SeqEvent.insertImage cum perRun false], r2.2, r2.1)
  else ([SeqEvent.insertImage cum perRun true], r1.2, r1.1)

/-- The worker loop of TesterCamera::SendSequence (lines 396-443) for a finite
run, embedded sequentially: remaining counts the frames still due, frame is
the per-run loop counter, cum is cumulativeSequenceCounter_ (post-incremented
at every frame generation, line 405, including iterations whose delivery then
fails). stopFlag is the value of stopSequence_ the worker observes, embedded
as constant over the run (none of the verified scenarios stops mid-run). At
the loop top the worker breaks when the flag is set; after a failed delivery
it re-reads the flag and either breaks (graceful stop) or throws
DeviceError(err), which the packaged task captures as the outcome. Returns
the callback events, the captured outcome and the final cumulative counter. -/
def sendSequenceAux (stopOnOverflow stopFlag : Bool) :
    List Nat → Nat → Nat → Nat → List SeqEvent × WorkerOutcome × Nat
  | _, cum, _, 0 => ([], WorkerOutcome.ok, cum)
  | script, cum, frame, r + 1 =>
    if stopFlag then ([], WorkerOutcome.ok, cum)
    else
      let d := deliverFrame script stopOnOverflow cum frame
      if d.2.2 = DEVICE_OK then
        let rest := sendSequenceAux stopOnOverflow stopFlag d.2.1 (cum + 1) (frame + 1) r
        (d.1 ++ rest.1, rest.2.1, rest.2.2)
      else if stopFlag then (d.1, WorkerOutcome.ok, cum + 1)
      else (d.1, WorkerOutcome.error d.2.2, cum + 1)

/-- TesterCamera::SendSequence for a finite run of count frames, starting the
cumulative counter at cum0, against a scripted collaborator. -/
def sendSequence (count : Nat) (stopOnOverflow stopFlag : Bool)
    (script : List Nat) (cum0 : Nat) : List SeqEvent × WorkerOutcome × Nat :=
  sendSequenceAux stopOnOverflow stopFlag script cum0 0 count

theorem deliverFrame_nil (sof : Bool) (cum perRun : Nat) :
    deliverFrame [] sof cum perRun =
      ([SeqEvent.insertImage cum perRun true], [], DEVICE_OK) := by
  simp [deliverFrame, takeResponse, DEVICE_OK, DEVICE_BUFFER_OVERFLOW]

theorem sendSequenceAux_nil_script (sof : Bool) :
    ∀ (r cum frame : Nat),
      sendSequenceAux sof false [] cum frame r =
        ((List.range r).map
          (fun k => SeqEvent.insertImage (cum + k) (frame + k) true),
         WorkerOutcome.ok, cum + r) := by
  intro r
  induction r with
  | zero => intro cum frame; simp [sendSequenceAux]
  | succ n ih =>
    intro cum frame
    have hstep :
        sendSequenceAux sof false [] cum frame (n + 1) =
          (SeqEvent.insertImage cum frame true ::
            (List.range n).map
              (fun k => SeqEvent.insertImage (cum + 1 + k) (frame + 1 + k) true),
           WorkerOutcome.ok, cum + 1 + n) := by
      rw [sendSequenceAux]
      simp [deliverFrame_nil, ih (cum + 1) (frame + 1)]
    rw [hstep]
    have hev : SeqEvent.insertImage cum frame true ::
        (List.range n).map
          (fun k => SeqEvent.insertImage (cum + 1 + k) (frame + 1 + k) true) =
        (List.range (n + 1)).map
          (fun k => SeqEvent.insertImage (cum + k) (frame + k) true) := by
      rw [List.range_succ_eq_map, List.map_cons, List.map_map]
      congr 1
      · apply List.map_congr_left
        intro k _
        show SeqEvent.insertImage (cum + 1 + k) (frame + 1 + k) true =
          SeqEvent.insertImage (cum + (k + 1)) (frame + (k + 1)) true
        have h1 : cum + 1 + k = cum + (k + 1) := by omega
        have h2 : frame + 1 + k = frame + (k + 1) := by omega
        rw [h1, h2]
    rw [hev]
    have hc : cum + 1 + n = cum + (n + 1) := by omega
    rw [hc]

/-- C5 (amended): an error inside the worker is captured as the run's outcome
value (the thrown DeviceError ends up in the future, never crossing the thread
boundary), the next stop surfaces exactly that code once and resets the
handoff, so a repeated stop returns DEVICE_OK instead of reporting the error
again; a stop completing a running sequence invokes the acquisition-finished
notification when the captured outcome is success, but not on the error path,
where the error code is returned before the notification. -/
theorem worker_error_surfaced_once (c : CameraSeq) (e ac : Nat)
    (h1 : c.stopSequence = false) (h2 : c.future = some (WorkerOutcome.error e)) :
    stopSequenceAcquisition c ac = (e, (⟨true, none⟩ : CameraSeq), 0) ∧
    stopSequenceAcquisition (⟨true, none⟩ : CameraSeq) ac =
      (DEVICE_OK, (⟨true, none⟩ : CameraSeq), 0) ∧
    (∀ c' : CameraSeq, c'.stopSequence = false →
      c'.future = some WorkerOutcome.ok →
      stopSequenceAcquisition c' ac = (ac, (⟨true, none⟩ : CameraSeq), 1)) ∧
    (∀ n code cum0 : Nat, code ≠ DEVICE_OK → code ≠ DEVICE_BUFFER_OVERFLOW →
      (sendSequence (n + 1) false false [code] cum0).2.1 =
        WorkerOutcome.error code) := by
  refine ⟨by simp [stopSequenceAcquisition, h1, h2], ?_, ?_, ?_⟩
  · simp [stopSequenceAcquisition]
  · intro c' hs hf
    simp [stopSequenceAcquisition, hs, hf]
  · intro n code cum0 hok hovf
    rw [sendSequence, sendSequenceAux]
    simp [deliverFrame, takeResponse, hok, hovf]

/-- C5 witness: a running camera whose worker captured error code 9; stop
surfaces 9 once with no notification and resets the handoff. -/
theorem worker_error_surfaced_once_witness :
    stopSequenceAcquisition (⟨false, some (WorkerOutcome.error 9)⟩ : CameraSeq)
        DEVICE_OK = (9, (⟨true, none⟩ : CameraSeq), 0) :=
  (worker_error_surfaced_once
    (⟨false, some (WorkerOutcome.error 9)⟩ : CameraSeq) 9 DEVICE_OK rfl rfl).1

/-- C6: with stopOnOverflow false and the collaborator scripted to report
BufferOverflow exactly once, the worker makes exactly one ClearImageBuffer
call followed by exactly one retry carrying the false don't-fail-on-overflow
flag, and the run then continues to completion: all n+1 frames are delivered
and the captured outcome is a normal completion. -/
theorem overflow_retry_once_then_completes (n cum0 : Nat) :
    sendSequence (n + 1) false false [DEVICE_BUFFER_OVERFLOW] cum0 =
      (SeqEvent.insertImage cum0 0 true :: SeqEvent.clearImageBuffer ::
        SeqEvent.insertImage cum0 0 false ::
        (List.range n).map
          (fun k => SeqEvent.insertImage (cum0 + 1 + k) (1 + k) true),
       WorkerOutcome.ok, cum0 + 1 + n) := by
  rw [sendSequence, sendSequenceAux]
  simp [deliverFrame, takeResponse, sendSequenceAux_nil_script false n (cum0 + 1) 1]

theorem sendSequence_clean_run (count cum0 : Nat) :
    sendSequence count false false [] cum0 =
      ((List.range count).map (fun k => SeqEvent.insertImage (cum0 + k) k true),
       WorkerOutcome.ok, cum0 + count) := by
  rw [sendSequence, sendSequenceAux_nil_script false count cum0 0]
  refine congrArg (fun l => (l, WorkerOutcome.ok, cum0 + count)) ?_
  apply List.map_congr_left
  intro k _
  rw [Nat.zero_add]

theorem pairwise_lt_map_add (a n : Nat) :
    List.Pairwise (· < ·) ((List.range n).map (fun k => a + k)) := by
  rw [List.pairwise_map]
  exact (List.pairwise_lt_range n).imp (fun h => by omega)

theorem mem_map_add_lt (a n : Nat) :
    ∀ x ∈ (List.range n).map (fun k => a + k), x < a + n := by
  intro x hx
  simp only [List.mem_map, List.mem_range] at hx
  obtain ⟨k, hk, rfl⟩ := hx
  omega

theorem mem_map_add_ge (a n : Nat) :
    ∀ x ∈ (List.range n).map (fun k => a + k), a ≤ x := by
  intro x hx
  simp only [List.mem_map, List.mem_range] at hx
  obtain ⟨k, _, rfl⟩ := hx
  omega

theorem clean_run_cumulatives (count cum0 : Nat) :
    List.map SeqEvent.cumulativeOf (sendSequence count false false [] cum0).1 =
      (List.range count).map (fun k => cum0 + k) := by
  rw [sendSequence_clean_run]
  rw [List.map_map]
  apply List.map_congr_left
  intro k _
  rfl

/-- C7: a finite clean 3-frame run on a fresh camera embeds cumulative counts
0,1,2 and per-run counts 0,1,2; in general, for a clean finite run of any
length from any prior cumulative counter, the k-th frame embeds cumulative
count cum0 + k and per-run count k (so the per-run counter restarts at 0 every
run while the cumulative counter carries on from cum0, ending at cum0 + count
for the next run); and across two back-to-back runs the embedded cumulative
counts are strictly increasing, so no two frames ever share one. -/
theorem sequence_counters_correct :
    (sendSequence 3 false false [] 0 =
      ([SeqEvent.insertImage 0 0 true, SeqEvent.insertImage 1 1 true,
        SeqEvent.insertImage 2 2 true], WorkerOutcome.ok, 3)) ∧
    (∀ count cum0 : Nat,
      sendSequence count false false [] cum0 =
        ((List.range count).map (fun k => SeqEvent.insertImage (cum0 + k) k true),
         WorkerOutcome.ok, cum0 + count)) ∧
    (∀ c1 c2 cum0 : Nat,
      List.Pairwise (· < ·)
        (List.map SeqEvent.cumulativeOf
          ((sendSequence c1 false false [] cum0).1 ++
           (sendSequence c2 false false []
             (sendSequence c1 false false [] cum0).2.2).1))) := by
  refine ⟨?_, sendSequence_clean_run, ?_⟩
  · rw [sendSequence_clean_run]
    rfl
  · intro c1 c2 cum0
    have h2 : (sendSequence c1 false false [] cum0).2.2 = cum0 + c1 := by
      rw [sendSequence_clean_run]
    rw [List.map_append, clean_run_cumulatives, h2, clean_run_cumulatives]
    rw [List.pairwise_append]
    refine ⟨pairwise_lt_map_add cum0 c1, pairwise_lt_map_add (cum0 + c1) c2, ?_⟩
    intro x hx y hy
    have hx' := mem_map_add_lt cum0 c1 x hx
    have hy' := mem_map_add_ge (cum0 + c1) c2 y hy
    omega

/-- C8: a finite run started with count 0 makes no call at all on the callback
collaborator — in particular it delivers no frame — and reaches its finished
state at once: the worker returns with a normal-completion outcome, leaving
the cumulative counter untouched. -/
theorem zero_count_run_emits_no_frames (script : List Nat)
    (sof stopFlag : Bool) (cum0 : Nat) :
    sendSequence 0 sof stopFlag script cum0 = ([], WorkerOutcome.ok, cum0) := rfl

/-- Modelled from the spec: the textual rendering of one log entry in the
frame payload digest — sequence number, thread id, setting name, kind and
value (section 6). -/
def entryText (e : LogEntry) : String :=
  toString e.seq ++ ":" ++ toString e.threadId ++ ":" ++ e.settingName ++ ":" ++
    (match e.kind with
     | EntryKind.read => "R"
     | EntryKind.write => "W") ++ ":" ++ e.valueText

/-- Modelled from the spec: the textual digest of the log contents since the
last reset (section 4.1). -/
def logDigest (lg : SettingLogger) : String :=
  String.intercalate ";" (lg.entries.map entryText)

/-- Modelled from the spec: the synthetic frame payload bytes — a
self-describing encoding of the device name, the still/sequence flag, the
cumulative and per-run counters and the log digest (section 6; the exact
layout is an implementation choice). -/
def encodePayload (lg : SettingLogger) (deviceName : String)
    (isSequenceImage : Bool) (cumulativeCount localCount : Nat) : List Nat :=
  (deviceName ++ "," ++ (if isSequenceImage then "S" else "N") ++ "," ++
    toString cumulativeCount ++ "," ++ toString localCount ++ "," ++
    logDigest lg).toList.map Char.toNat

/-- The number of bytes the full encoding requires. -/
def requiredSize (lg : SettingLogger) (deviceName : String)
    (isSequenceImage : Bool) (cumulativeCount localCount : Nat) : Nat :=
  (encodePayload lg deviceName isSequenceImage cumulativeCount localCount).length

/-- Modelled from the spec: SettingLogger packAndReset (sections 4.1 and 6):
serialize the payload into a caller buffer of bufferSize bytes — when the
buffer is smaller than the required encoding, truncate deterministically to
the first bufferSize bytes, never writing at or past bufferSize, and report
InsufficientCapacity — then clear the in-memory log (the monotonic global
counter is not reset). Returns the bytes written, the status code and the
logger after the reset. -/
def packAndReset (lg : SettingLogger) (bufferSize : Nat) (deviceName : String)
    (isSequenceImage : Bool) (cumulativeCount localCount : Nat) :
    List Nat × Nat × SettingLogger :=
  let payload := encodePayload lg deviceName isSequenceImage cumulativeCount localCount
  if payload.length ≤ bufferSize then (payload, DEVICE_OK, ⟨lg.counter, []⟩)
  else (payload.take bufferSize, errInsufficientCapacity, ⟨lg.counter, []⟩)

/-- C9: whenever the buffer is smaller than the required encoding — one byte
smaller included — packAndReset reports InsufficientCapacity, writes exactly
the first bufferSize bytes of the encoding (deterministic truncation,
matching the full payload position by position) and writes nothing at or
beyond offset bufferSize. -/
theorem packAndReset_truncates (lg : SettingLogger) (bufferSize : Nat)
    (deviceName : String) (isSequenceImage : Bool) (cumulativeCount localCount : Nat)
    (h : bufferSize < requiredSize lg deviceName isSequenceImage cumulativeCount localCount) :
    (packAndReset lg bufferSize deviceName isSequenceImage cumulativeCount
        localCount).2.1 = errInsufficientCapacity ∧
    (packAndReset lg bufferSize deviceName isSequenceImage cumulativeCount
        localCount).1.length = bufferSize ∧
    (∀ i : Nat, i < bufferSize →
      (packAndReset lg bufferSize deviceName isSequenceImage cumulativeCount
          localCount).1[i]? =
        (encodePayload lg deviceName isSequenceImage cumulativeCount localCount)[i]?) ∧
    (∀ i : Nat, bufferSize ≤ i →
      (packAndReset lg bufferSize deviceName isSequenceImage cumulativeCount
          localCount).1[i]? = none) := by
  have hlt : ¬ (encodePayload lg deviceName isSequenceImage cumulativeCount
      localCount).length ≤ bufferSize := by
    rw [requiredSize] at h
    omega
  have hres : packAndReset lg bufferSize deviceName isSequenceImage cumulativeCount
      localCount =
      ((encodePayload lg deviceName isSequenceImage cumulativeCount
          localCount).take bufferSize,
       errInsufficientCapacity, ⟨lg.counter, []⟩) := by
    rw [packAndReset]
    simp only [hlt, if_false]
  rw [hres]
  refine ⟨rfl, ?_, ?_, ?_⟩
  · rw [List.length_take]
    rw [requiredSize] at h
    omega
  · intro i hi
    rw [List.getElem?_take]
    simp [hi]
  · intro i hi
    apply List.getElem?_eq_none
    rw [List.length_take]
    omega

/-- C9 witness: a logger holding one Exposure write, packed into a buffer
exactly one byte smaller than the required encoding, reports
InsufficientCapacity and writes exactly that many bytes. -/
theorem packAndReset_truncates_witness :
    (packAndReset (SettingLogger.fresh.recordWrite 0 "Exposure" "50")
        (requiredSize (SettingLogger.fresh.recordWrite 0 "Exposure" "50")
          "TCamera-0" true 0 0 - 1)
        "TCamera-0" true 0 0).2.1 = errInsufficientCapacity ∧
    (packAndReset (SettingLogger.fresh.recordWrite 0 "Exposure" "50")
        (requiredSize (SettingLogger.fresh.recordWrite 0 "Exposure" "50")
          "TCamera-0" true 0 0 - 1)
        "TCamera-0" true 0 0).1.length =
      requiredSize (SettingLogger.fresh.recordWrite 0 "Exposure" "50")
        "TCamera-0" true 0 0 - 1 := by
  have h := packAndReset_truncates (SettingLogger.fresh.recordWrite 0 "Exposure" "50")
    (requiredSize (SettingLogger.fresh.recordWrite 0 "Exposure" "50")
      "TCamera-0" true 0 0 - 1)
    "TCamera-0" true 0 0 (by decide)
  exact ⟨h.1, h.2.1⟩

/-- The TesterXYStage state the claims need: its two integer position settings
(created in Initialize, lines 455-458; the theorem below ranges over arbitrary
setting states, of which the unbounded ones created there are an instance). -/
structure TesterXYStage where
  xPositionSteps : Setting Int
  yPositionSteps : Setting Int
  deriving DecidableEq

/-- TesterXYStage::SetPositionSteps (lines 467-479): under one logger guard —
embedded as one atomic step — set X, then set Y (both Sets run before any
check), then return err1 if it is non-OK, else err2 if it is non-OK, else
DEVICE_OK. Returns the result code, the logger and the stage afterwards. -/
def setPositionSteps (lg : SettingLogger) (st : TesterXYStage) (tid : Nat)
    (x y : Int) : Nat × SettingLogger × TesterXYStage :=
  let r1 := Setting.set lg st.xPositionSteps tid x
  let r2 := Setting.set r1.2.1 st.yPositionSteps tid y
  (if r1.1 ≠ DEVICE_OK then r1.1
   else if r2.1 ≠ DEVICE_OK then r2.1
   else DEVICE_OK,
   r2.2.1, ⟨r1.2.2, r2.2.2⟩)

/-- C10: SetPositionSteps attempts both writes under the single guard even
when the X write fails, and combines the codes X-first. For settings free of
the pre-init-only restriction: when X is out of bounds and Y is in bounds the
call returns X's OutOfRange error, yet Y's Write entry is still appended and
Y's value stored while X is untouched; when both are in bounds it returns
DEVICE_OK with both Write entries appended in X-then-Y order and both values
stored; when only Y is out of bounds it returns Y's error with only X's entry
appended. -/
theorem setPositionSteps_attempts_both_writes (lg : SettingLogger)
    (st : TesterXYStage) (tid : Nat) (x y : Int)
    (hx : st.xPositionSteps.preInitOnly = false)
    (hy : st.yPositionSteps.preInitOnly = false) :
    (st.xPositionSteps.outOfBounds x = true →
     st.yPositionSteps.outOfBounds y = false →
      (setPositionSteps lg st tid x y).1 = errOutOfRange ∧
      (setPositionSteps lg st tid x y).2.1.entries =
        lg.entries ++ [⟨lg.counter, tid, st.yPositionSteps.name, EntryKind.write,
          toString y⟩] ∧
      (setPositionSteps lg st tid x y).2.2.yPositionSteps.value = y ∧
      (setPositionSteps lg st tid x y).2.2.xPositionSteps = st.xPositionSteps) ∧
    (st.xPositionSteps.outOfBounds x = false →
     st.yPositionSteps.outOfBounds y = false →
      (setPositionSteps lg st tid x y).1 = DEVICE_OK ∧
      (setPositionSteps lg st tid x y).2.1.entries =
        lg.entries ++
          [⟨lg.counter, tid, st.xPositionSteps.name, EntryKind.write, toString x⟩,
           ⟨lg.counter + 1, tid, st.yPositionSteps.name, EntryKind.write,
             toString y⟩] ∧
      (setPositionSteps lg st tid x y).2.2.xPositionSteps.value = x ∧
      (setPositionSteps lg st tid x y).2.2.yPositionSteps.value = y) ∧
    (st.xPositionSteps.outOfBounds x = false →
     st.yPositionSteps.outOfBounds y = true →
      (setPositionSteps lg st tid x y).1 = errOutOfRange ∧
      (setPositionSteps lg st tid x y).2.1.entries =
        lg.entries ++
          [⟨lg.counter, tid, st.xPositionSteps.name, EntryKind.write, toString x⟩] ∧
      (setPositionSteps lg st tid x y).2.2.xPositionSteps.value = x ∧
      (setPositionSteps lg st tid x y).2.2.yPositionSteps = st.yPositionSteps) := by
  have hbx : (st.xPositionSteps.preInitOnly && st.xPositionSteps.initialized) =
      false := by simp [hx]
  have hby : (st.yPositionSteps.preInitOnly && st.yPositionSteps.initialized) =
      false := by simp [hy]
  refine ⟨?_, ?_, ?_⟩
  · intro hox hoy
    simp [setPositionSteps, Setting.set, hbx, hby, hox, hoy,
      SettingLogger.recordWrite, SettingLogger.record, errOutOfRange, DEVICE_OK]
  · intro hox hoy
    simp [setPositionSteps, Setting.set, hbx, hby, hox, hoy,
      SettingLogger.recordWrite, SettingLogger.record, DEVICE_OK]
  · intro hox hoy
    simp [setPositionSteps, Setting.set, hbx, hby, hox, hoy,
      SettingLogger.recordWrite, SettingLogger.record, errOutOfRange, DEVICE_OK]

/-- C10 witness: a stage whose X setting is bounded to 0..10 and whose Y
setting is unbounded; SetPositionSteps with x out of range returns OutOfRange
while the Y write is still recorded and stored. -/
theorem setPositionSteps_attempts_both_writes_witness :
    (setPositionSteps SettingLogger.fresh
        (⟨⟨"XPositionSteps", (0 : Int), some 0, some 10, false, true⟩,
          ⟨"YPositionSteps", (0 : Int), none, none, false, true⟩⟩ : TesterXYStage)
        0 11 5).1 = errOutOfRange ∧
    (setPositionSteps SettingLogger.fresh
        (⟨⟨"XPositionSteps", (0 : Int), some 0, some 10, false, true⟩,
          ⟨"YPositionSteps", (0 : Int), none, none, false, true⟩⟩ : TesterXYStage)
        0 11 5).2.2.yPositionSteps.value = 5 := by
  have h := (setPositionSteps_attempts_both_writes SettingLogger.fresh
    (⟨⟨"XPositionSteps", (0 : Int), some 0, some 10, false, true⟩,
      ⟨"YPositionSteps", (0 : Int), none, none, false, true⟩⟩ : TesterXYStage)
    0 11 5 rfl rfl).1 (by decide) (by decide)
  exact ⟨h.1, h.2.2.1⟩
